import Mathlib

/-!
Shallow embedding of the nodejs-api-test-framework repository:
CRUD routes for clients and orders (routes/clientRoutes.js, routes/orderRoutes.js,
routes/clientOrdersRoutes.js), the auth routes (routes/authRoutes.js), the JWT
auth middleware (middleware/authMiddleware.js), and the mongoose models
(models/Client.js, models/Order.js, models/Product.js).

JavaScript numbers are modelled as rationals (ℚ); MongoDB collections are
modelled as association lists keyed by the ObjectId string; a well-formed
ObjectId is a 24-character hex string (mongoose casts any other string to a
CastError, which a route's catch block turns into a 400 response).
-/

namespace NodeApi

/-- Boolean test that the first list of characters occurs at the head of the
second one (used to model JavaScript string search). -/
def listStartsWith : List Char → List Char → Bool
  | [], _ => true
  | _ :: _, [] => false
  | a :: as, b :: bs => a == b && listStartsWith as bs

/-- Boolean test that `pat` occurs as a contiguous substring of the second
list (used to model a literal JavaScript RegExp match with no anchors). -/
def hasSub (pat : List Char) : List Char → Bool
  | [] => listStartsWith pat []
  | c :: rest => listStartsWith pat (c :: rest) || hasSub pat rest

/-- Case-insensitive substring containment, modelling `new RegExp(pat, "i")`
applied to a literal pattern, as in the client list filters. -/
def containsCI (s pat : String) : Bool :=
  hasSub (pat.data.map Char.toLower) (s.data.map Char.toLower)

/-- Replace the first occurrence of `pat` (non-empty in all uses) by `repl`,
modelling JavaScript `String.prototype.replace` with a string pattern. -/
def replaceFirstAux (pat repl : List Char) : List Char → List Char
  | [] => []
  | c :: rest =>
    if listStartsWith pat (c :: rest) then repl ++ (c :: rest).drop pat.length
    else c :: replaceFirstAux pat repl rest

/-- String version of `replaceFirstAux`; models `s.replace(pat, repl)`. -/
def replaceFirst (s pat repl : String) : String :=
  ⟨replaceFirstAux pat.data repl.data s.data⟩

/-- Hexadecimal digit test, for ObjectId well-formedness. -/
def isHexChar (c : Char) : Bool :=
  c.isDigit || ('a' ≤ c && c ≤ 'f') || ('A' ≤ c && c ≤ 'F')

/-- Mongoose accepts a 24-character hexadecimal string as an ObjectId; any
other string makes `findById` and friends throw a CastError. -/
def isValidObjectId (s : String) : Bool :=
  s.length == 24 && s.data.all isHexChar

/-- The string `msg` mentions `pid` (contains it as a substring); used to
state that an error response names the offending product id. -/
def mentions (msg pid : String) : Prop :=
  ∃ a b, msg = a ++ (pid ++ b)

/-! ## Data model (models/Client.js, models/Order.js, models/Product.js) -/

/-- Client document: `name` and `email` (models/Client.js). -/
structure Client where
  name : String
  email : String
  deriving DecidableEq, Repr

/-- Product document: `name` and `price` (models/Product.js, per README). -/
structure Product where
  name : String
  price : ℚ
  deriving DecidableEq, Repr

/-- Order status enum from models/Order.js. -/
inductive OrderStatus where
  | pending
  | shipped
  | delivered
  | canceled
  deriving DecidableEq, Repr

/-- One entry of an order's `items` array (models/Order.js). -/
structure OrderItem where
  productId : String
  quantity : ℚ
  deriving DecidableEq, Repr

/-- Order document (models/Order.js). -/
structure Order where
  clientId : String
  items : List OrderItem
  totalPrice : ℚ
  status : OrderStatus
  createdAt : Nat
  deriving DecidableEq, Repr

/-- User credential record; the file models/User.js is referenced by
routes/authRoutes.js. -/
structure User where
  name : String
  email : String
  password : String
  deriving DecidableEq, Repr

/-- The document store: one association list per collection, keyed by the
ObjectId string. -/
structure DB where
  clients : List (String × Client)
  products : List (String × Product)
  orders : List (String × Order)
  users : List (String × User)
  deriving DecidableEq, Repr

/-- JSON responses a CRUD route can produce: 201 with a body, 200 with a
body, 200 with only a message, 400 with a message and an optional `error`
field, 404 with a message. -/
inductive ApiResp (α : Type) where
  | created (body : α)
  | ok (body : α)
  | msg (message : String)
  | badRequest (message : String) (error : Option String)
  | notFound (message : String)
  deriving DecidableEq, Repr

/-- HTTP status code of a response. -/
def statusOf {α : Type} : ApiResp α → Nat
  | .created _ => 201
  | .ok _ => 200
  | .msg _ => 200
  | .badRequest _ _ => 400
  | .notFound _ => 404

/-! ## Order pricing (the loop shared by the order create/update handlers) -/

/-- Failure of one step of the pricing loop: `Product.findById(item.productId)`
either throws a CastError (malformed id) or resolves to `null` (unknown id). -/
inductive PriceErr where
  | castFail (productId : String)
  | unknown (productId : String)
  deriving DecidableEq, Repr

/-- The product id carried by a pricing failure. -/
def PriceErr.pid : PriceErr → String
  | .castFail p => p
  | .unknown p => p

/-- Model of the message of a mongoose CastError, which names the offending
value. -/
def castMsg (id : String) : String :=
  "Cast to ObjectId failed for value " ++ id

/-- The pricing loop of the order create/update handlers:
`for (let item of items) { const product = await Product.findById(item.productId);
if (!product) return 400 Invalid product ID; totalPrice += product.price * item.quantity }`.
`acc` is the running `totalPrice`, initially 0. -/
def priceItems (products : List (String × Product)) (acc : ℚ) :
    List OrderItem → Except PriceErr ℚ
  | [] => .ok acc
  | i :: rest =>
    if isValidObjectId i.productId then
      match products.lookup i.productId with
      | none => .error (.unknown i.productId)
      | some p => priceItems products (acc + p.price * i.quantity) rest
    else .error (.castFail i.productId)

/-- The total the spec prescribes: sum over the items, in order, of the
resolved product's price times the quantity (0 for an unresolvable id, which
never happens under the hypotheses it is used with). -/
def specSum (products : List (String × Product)) (items : List OrderItem) : ℚ :=
  (items.map (fun i =>
    (match products.lookup i.productId with
     | some p => p.price
     | none => 0) * i.quantity)).sum

/-- Boolean test that one item's product id resolves to a stored product. -/
def goodItem (products : List (String × Product)) (i : OrderItem) : Bool :=
  isValidObjectId i.productId && (products.lookup i.productId).isSome

/-- The product id of the first item whose product does not resolve, if any. -/
def firstBad (products : List (String × Product)) (items : List OrderItem) :
    Option String :=
  (items.find? (fun i => !goodItem products i)).map OrderItem.productId

/-! ## Order routes (routes/orderRoutes.js — the variant with automatic
price calculation, and routes/clientOrdersRoutes.js) -/

/-- Request body of an order creation request. The handlers that compute the
price destructure only `clientId` and `items`; the earlier handler variant
also destructures `totalPrice`. -/
structure OrderReqBody where
  clientId : String
  items : List OrderItem
  totalPrice : Option ℚ
  deriving DecidableEq, Repr

/-- Validation mongoose runs when `save()` is called on a new Order: every
item's `quantity` satisfies the schema's `min: 1` and its `productId` casts;
`items: []` passes (the schema has no non-emptiness constraint). -/
def saveItemsValid (items : List OrderItem) : Bool :=
  items.all (fun i => isValidObjectId i.productId && decide (1 ≤ i.quantity))

/-- POST /orders (routes/orderRoutes.js, automatic price calculation):
looks up the client (400 Invalid client ID when it resolves to null, 400
Error creating order when `findById` throws on a malformed id), runs the
pricing loop, then saves `new Order({ clientId, items, totalPrice })` with
`status` defaulted to pending and `createdAt` to now. -/
def ordersCreate (db : DB) (body : OrderReqBody) (now : Nat) (newId : String) :
    ApiResp Order × DB :=
  if isValidObjectId body.clientId then
    match db.clients.lookup body.clientId with
    | none => (.badRequest "Invalid client ID" none, db)
    | some _ =>
      match priceItems db.products 0 body.items with
      | .error (.unknown pid) => (.badRequest ("Invalid product ID: " ++ pid) none, db)
      | .error (.castFail pid) =>
        (.badRequest "Error creating order" (some (castMsg pid)), db)
      | .ok tp =>
        if saveItemsValid body.items then
          let o : Order :=
            { clientId := body.clientId, items := body.items, totalPrice := tp,
              status := .pending, createdAt := now }
          (.created o, { db with orders := (newId, o) :: db.orders })
        else (.badRequest "Error creating order" (some "Order validation failed"), db)
  else (.badRequest "Error creating order" (some (castMsg body.clientId)), db)

/-- PUT /orders/:id (routes/orderRoutes.js, automatic price calculation):
runs the pricing loop on the new items, then
`Order.findByIdAndUpdate(id, { items, totalPrice }, { new: true })`.
Mongoose does not run the schema validators on an update by default, so the
`min: 1` quantity constraint is not re-checked here. -/
def ordersUpdate (db : DB) (id : String) (items : List OrderItem) :
    ApiResp Order × DB :=
  match priceItems db.products 0 items with
  | .error (.unknown pid) => (.badRequest ("Invalid product ID: " ++ pid) none, db)
  | .error (.castFail pid) =>
    (.badRequest "Error updating order" (some (castMsg pid)), db)
  | .ok tp =>
    if isValidObjectId id then
      match db.orders.lookup id with
      | none => (.notFound "Order not found", db)
      | some o =>
        let o' : Order := { o with items := items, totalPrice := tp }
        (.ok o',
         { db with orders := db.orders.map (fun p => if p.1 = id then (p.1, o') else p) })
    else (.badRequest "Error updating order" (some (castMsg id)), db)

/-- DELETE /orders/:id (routes/orderRoutes.js):
`Order.findByIdAndDelete(id)`; null yields 404, a CastError yields 400. -/
def ordersDelete (db : DB) (id : String) : ApiResp Order × DB :=
  if isValidObjectId id then
    match db.orders.lookup id with
    | none => (.notFound "Order not found", db)
    | some _ =>
      (.msg "Order deleted successfully",
       { db with orders := db.orders.filter (fun p => p.1 != id) })
  else (.badRequest "Invalid ID format" none, db)

/-- POST /orders from the earlier handler variant of routes/orderRoutes.js:
destructures `{ clientId, items, totalPrice }` from the request body, checks
only that the client exists, and persists the client-supplied `totalPrice`
verbatim (no pricing loop, no product existence check). A missing
`totalPrice` fails the schema's `required` at save. -/
def ordersCreateV0 (db : DB) (body : OrderReqBody) (now : Nat) (newId : String) :
    ApiResp Order × DB :=
  if isValidObjectId body.clientId then
    match db.clients.lookup body.clientId with
    | none => (.badRequest "Invalid client ID" none, db)
    | some _ =>
      match body.totalPrice with
      | none => (.badRequest "Error creating order" none, db)
      | some tp =>
        if saveItemsValid body.items then
          let o : Order :=
            { clientId := body.clientId, items := body.items, totalPrice := tp,
              status := .pending, createdAt := now }
          (.created o, { db with orders := (newId, o) :: db.orders })
        else (.badRequest "Error creating order" none, db)
  else (.badRequest "Error creating order" none, db)

/-- POST /clients/:clientId/orders (routes/clientOrdersRoutes.js): runs the
pricing loop on the body's items and saves
`new Order({ clientId: req.params.clientId, items, totalPrice })`.
No lookup of the client is performed: the handler never consults the
clients collection. -/
def clientOrdersCreate (db : DB) (clientId : String) (items : List OrderItem)
    (now : Nat) (newId : String) : ApiResp Order × DB :=
  match priceItems db.products 0 items with
  | .error (.unknown pid) => (.badRequest ("Invalid product ID: " ++ pid) none, db)
  | .error (.castFail pid) =>
    (.badRequest "Error creating order" (some (castMsg pid)), db)
  | .ok tp =>
    if isValidObjectId clientId && saveItemsValid items then
      let o : Order :=
        { clientId := clientId, items := items, totalPrice := tp,
          status := .pending, createdAt := now }
      (.created o, { db with orders := (newId, o) :: db.orders })
    else (.badRequest "Error creating order" (some (castMsg clientId)), db)

/-! ## Client routes (routes/clientRoutes.js) -/

/-- One element of the client list response's `data` array. -/
structure ClientView where
  id : String
  name : String
  email : String
  deriving DecidableEq, Repr

/-- Shape of the client list response. -/
structure ClientsPage where
  total : Nat
  page : Nat
  limit : Nat
  totalPages : Nat
  data : List ClientView
  deriving DecidableEq, Repr

/-- The filter built from the query: `if (name) query.name = RegExp(name, "i")`
and likewise for email — a case-insensitive substring match when supplied. -/
def matchesClient (nameF emailF : Option String) (c : Client) : Bool :=
  (match nameF with
   | none => true
   | some f => containsCI c.name f) &&
  (match emailF with
   | none => true
   | some f => containsCI c.email f)

/-- GET /clients (routes/clientRoutes.js): `page` and `limit` default to 1 and
10, `skip((page - 1) * limit).limit(limit)`, and
`totalPages: Math.ceil(total / limit)` (written in ℕ as `(total + limit - 1) / limit`). -/
def clientsList (db : DB) (pageQ limitQ : Option Nat) (nameF emailF : Option String) :
    ClientsPage :=
  let page := pageQ.getD 1
  let limit := limitQ.getD 10
  let matched := db.clients.filter (fun p => matchesClient nameF emailF p.2)
  let total := matched.length
  { total := total, page := page, limit := limit,
    totalPages := (total + limit - 1) / limit,
    data := ((matched.drop ((page - 1) * limit)).take limit).map
      (fun p => ⟨p.1, p.2.name, p.2.email⟩) }

/-- GET /clients/:id (routes/clientRoutes.js): a CastError (malformed id)
yields 400 Invalid ID format, a null result yields 404 Client not found. -/
def clientsGetById (db : DB) (id : String) : ApiResp ClientView :=
  if isValidObjectId id then
    match db.clients.lookup id with
    | none => .notFound "Client not found"
    | some c => .ok ⟨id, c.name, c.email⟩
  else .badRequest "Invalid ID format" none

/-- DELETE /clients/:id (routes/clientRoutes.js):
`Client.findByIdAndDelete(id)`; null yields 404, a CastError yields 400. -/
def clientsDelete (db : DB) (id : String) : ApiResp ClientView × DB :=
  if isValidObjectId id then
    match db.clients.lookup id with
    | none => (.notFound "Client not found", db)
    | some _ =>
      (.msg "Client deleted successfully",
       { db with clients := db.clients.filter (fun p => p.1 != id) })
  else (.badRequest "Invalid ID format" none, db)

/-! ## Auth middleware (middleware/authMiddleware.js) -/

/-- Outcome of the middleware: a 401 response, or `next()` with the decoded
payload attached to `req.user`. -/
inductive AuthOutcome (α : Type) where
  | denied (status : Nat) (message : String)
  | allowed (user : α)
  deriving DecidableEq, Repr

/-- The middleware: reads the `Authorization` header, responds 401 when it is
missing (or empty: `if (!token)`), otherwise verifies
`token.replace("Bearer ", "")` and either attaches the decoded payload and
continues, or responds 401 Invalid token. `verify` abstracts
`jsonwebtoken.verify(·, SECRET_KEY)`, returning `none` on any throw (bad
signature, malformed, expired). -/
def authMiddleware {α : Type} (verify : String → Option α)
    (header : Option String) : AuthOutcome α :=
  match header with
  | none => .denied 401 "Access denied. No token provided."
  | some token =>
    if token = "" then .denied 401 "Access denied. No token provided."
    else
      match verify (replaceFirst token "Bearer " "") with
      | some u => .allowed u
      | none => .denied 401 "Invalid token"

/-! ## Auth routes (routes/authRoutes.js) -/

/-- Modelled from the spec: models/User.js is referenced by
routes/authRoutes.js but is not part of the provided sources; per §3 and §4.1
of the specification the User record stores the password as an irreversible
hash produced by the PasswordHasher, so saving a user applies `hashPassword`
to the plaintext. The concrete tag models an ideal injective one-way hash. -/
def hashPassword (p : String) : String :=
  "bcrypt$" ++ p

/-- Modelled from the spec: bcryptjs `compare(plaintext, digest)` (§4.1),
true exactly when the digest is the hash of the plaintext. -/
def bcryptCompare (p digest : String) : Bool :=
  digest == hashPassword p

/-- Modelled from the spec: a signed token issued by jsonwebtoken `sign`
(§4.2) embeds the user id; expiry is irrelevant to the properties proved
here and is omitted. -/
structure SignedToken where
  userId : String
  deriving DecidableEq, Repr

/-- Modelled from the spec: `sign({ userId }, SECRET_KEY, ...)` (§4.2). -/
def signToken (userId : String) : SignedToken :=
  ⟨userId⟩

/-- Modelled from the spec: the decoded subject of a token (§4.2, §8). -/
def decodedSubject (t : SignedToken) : String :=
  t.userId

/-- Coarse model of the external express-validator `isEmail` check: the
routes use it identically at registration and login, so only its consistency
matters for the properties proved here. -/
def isEmailB (s : String) : Bool :=
  s.contains '@'

/-- Responses of the auth routes: 201 on registration, 200 with a token on
login, 400 with a validator errors array, 400 with a message. -/
inductive AuthResp where
  | registered
  | token (t : SignedToken)
  | validationFailed (messages : List String)
  | badRequest (message : String)
  deriving DecidableEq, Repr

/-- POST /auth/register (routes/authRoutes.js): validators (name non-empty,
valid email, password at least 6 characters), duplicate-email check via
`findOne({ email })`, then save of the new user. -/
def authRegister (db : DB) (name email password : String) (newId : String) :
    AuthResp × DB :=
  let errs :=
    (if name = "" then ["Name is required"] else []) ++
    (if isEmailB email then [] else ["Valid email is required"]) ++
    (if password.length < 6 then ["Password must be at least 6 characters long"] else [])
  if errs = [] then
    match db.users.find? (fun u => u.2.email == email) with
    | some _ => (.badRequest "Email already in use", db)
    | none =>
      (.registered,
       { db with users := (newId, ⟨name, email, hashPassword password⟩) :: db.users })
  else (.validationFailed errs, db)

/-- POST /auth/login (routes/authRoutes.js): validators (valid email,
password non-empty), `findOne({ email })`, bcrypt compare, then
`sign({ userId: user._id }, SECRET_KEY, { expiresIn: "1h" })`. -/
def authLogin (db : DB) (email password : String) : AuthResp :=
  let errs :=
    (if isEmailB email then [] else ["Valid email is required"]) ++
    (if password = "" then ["Password is required"] else [])
  if errs = [] then
    match db.users.find? (fun u => u.2.email == email) with
    | none => .badRequest "Invalid credentials"
    | some u =>
      if bcryptCompare password u.2.password then .token (signToken u.1)
      else .badRequest "Invalid credentials"
  else .validationFailed errs

/-! ## Auxiliary predicates and concrete data used in the statements below -/

/-- The response is a 400 failure whose `message` or `error` field names the
given product id; in particular no order (hence no total) is returned. -/
def namesOffending : ApiResp Order → String → Prop
  | .badRequest m e, pid => mentions m pid ∨ ∃ s, e = some s ∧ mentions s pid
  | _, _ => False

/-- Well-formed ObjectId of a stored client. -/
def cidW : String := "aaaaaaaaaaaaaaaaaaaaaaaa"

/-- Well-formed ObjectId of a stored product. -/
def pidW : String := "bbbbbbbbbbbbbbbbbbbbbbbb"

/-- Well-formed ObjectId matching no stored product. -/
def pidU : String := "cccccccccccccccccccccccc"

/-- Well-formed ObjectId used as the id the store generates for a new order. -/
def oidW : String := "dddddddddddddddddddddddd"

/-- Well-formed ObjectId matching no stored client. -/
def eidW : String := "eeeeeeeeeeeeeeeeeeeeeeee"

/-- Well-formed ObjectId of a stored order. -/
def ordIdW : String := "ffffffffffffffffffffffff"

/-- Well-formed ObjectId used as the id the store generates for a new user. -/
def uidW : String := "0123456789abcdef01234567"

/-- A store with one client and one product of price 10. -/
def dbW : DB :=
  { clients := [(cidW, ⟨"John", "john@example.com"⟩)],
    products := [(pidW, ⟨"P1", 10⟩)],
    orders := [], users := [] }

/-- `dbW` with one stored order. -/
def dbOrdW : DB :=
  { clients := [(cidW, ⟨"John", "john@example.com"⟩)],
    products := [(pidW, ⟨"P1", 10⟩)],
    orders := [(ordIdW, ⟨cidW, [⟨pidW, 1⟩], 10, .pending, 0⟩)],
    users := [] }

/-- A store with three clients, matching the seeded pagination scenario. -/
def db3W : DB :=
  { clients := [(cidW, ⟨"John Doe", "john@example.com"⟩),
                (pidW, ⟨"Jane Smith", "jane@example.com"⟩),
                (pidU, ⟨"Alice Brown", "alice@example.com"⟩)],
    products := [], orders := [], users := [] }

/-- The store produced by registering one user against `dbW`. -/
def dbRegW : DB :=
  { clients := [(cidW, ⟨"John", "john@example.com"⟩)],
    products := [(pidW, ⟨"P1", 10⟩)],
    orders := [],
    users := [(uidW, ⟨"John", "john@e.com", hashPassword "secret1"⟩)] }

/-- A concrete verifier accepting exactly the token string "tok". -/
def vW : String → Option Nat :=
  fun s => if s = "tok" then some 7 else none

/-- The order created by the successful concrete create below. -/
def oC1W : Order := ⟨cidW, [⟨pidW, 2⟩], 20, .pending, 0⟩

/-- The store after that create. -/
def dbC1W : DB :=
  { clients := [(cidW, ⟨"John", "john@example.com"⟩)],
    products := [(pidW, ⟨"P1", 10⟩)],
    orders := [(oidW, oC1W)], users := [] }

/-- The order produced by the successful concrete update below. -/
def oU1W : Order := ⟨cidW, [⟨pidW, 3⟩], 30, .pending, 0⟩

/-- The store after that update. -/
def dbU1W : DB :=
  { clients := [(cidW, ⟨"John", "john@example.com"⟩)],
    products := [(pidW, ⟨"P1", 10⟩)],
    orders := [(ordIdW, oU1W)], users := [] }

/-! ## General lemmas about the embedded operations -/

theorem listStartsWith_mem : ∀ {pat l : List Char}, listStartsWith pat l = true →
    ∀ c ∈ pat, c ∈ l
  | [], _, _, c, hc => absurd hc (List.not_mem_nil c)
  | _ :: _, [], h, _, _ => by simp [listStartsWith] at h
  | a :: as, b :: bs, h, c, hc => by
    simp only [listStartsWith, Bool.and_eq_true, beq_iff_eq] at h
    rcases List.mem_cons.mp hc with rfl | hmem
    · exact h.1 ▸ List.mem_cons_self _ _
    · exact List.mem_cons_of_mem _ (listStartsWith_mem h.2 c hmem)

theorem replaceFirstAux_eq_self {pat : List Char} (repl : List Char) {c : Char}
    (hc : c ∈ pat) : ∀ {l : List Char}, c ∉ l → replaceFirstAux pat repl l = l
  | [], _ => rfl
  | a :: rest, hl => by
    rw [replaceFirstAux]
    have hns : listStartsWith pat (a :: rest) ≠ true := fun h =>
      hl (listStartsWith_mem h c hc)
    simp only [hns, Bool.false_eq_true, if_false]
    rw [replaceFirstAux_eq_self repl hc (fun h => hl (List.mem_cons_of_mem a h))]

theorem replaceFirst_no_space {t : String} (h : ∀ c ∈ t.data, c ≠ ' ') :
    replaceFirst t "Bearer " "" = t := by
  have hsp : (' ' : Char) ∈ "Bearer ".data := by decide
  have hnl : (' ' : Char) ∉ t.data := fun hm => h ' ' hm rfl
  show String.mk (replaceFirstAux "Bearer ".data "".data t.data) = t
  rw [replaceFirstAux_eq_self _ hsp hnl]

theorem replaceFirst_strip (t : String) :
    replaceFirst ("Bearer " ++ t) "Bearer " "" = t := rfl

theorem lookup_filter_ne {α : Type} (id : String) :
    ∀ (l : List (String × α)), (l.filter (fun p => p.1 != id)).lookup id = none
  | [] => rfl
  | (k, v) :: rest => by
    have hrest := lookup_filter_ne id rest
    by_cases hk : k = id
    · simp [List.filter_cons, hk, hrest]
    · have hne : (id == k) = false := beq_eq_false_iff_ne.mpr (fun he => hk he.symm)
      simp [List.filter_cons, bne_iff_ne, hk, List.lookup, hne, hrest]

theorem lookup_map_replace {α : Type} {id : String} {v : α} (w : α) :
    ∀ {l : List (String × α)}, l.lookup id = some v →
    (l.map (fun p => if p.1 = id then (p.1, w) else p)).lookup id = some w
  | [], h => by simp [List.lookup] at h
  | (k, x) :: rest, h => by
    by_cases hk : k = id
    · subst hk
      rw [List.map_cons]
      show ((if k = k then (k, w) else (k, x)) :: _).lookup k = some w
      rw [if_pos rfl]
      simp [List.lookup]
    · have hne : (id == k) = false := beq_eq_false_iff_ne.mpr (fun he => hk he.symm)
      rw [List.lookup, hne] at h
      simp only [List.map, hk, if_false]
      rw [List.lookup, hne]
      exact lookup_map_replace w h

theorem specSum_cons (products : List (String × Product)) (i : OrderItem)
    (items : List OrderItem) :
    specSum products (i :: items) =
      (match products.lookup i.productId with
       | some p => p.price
       | none => 0) * i.quantity + specSum products items := by
  simp [specSum]

theorem priceItems_ok {products : List (String × Product)} :
    ∀ {items : List OrderItem} {acc t : ℚ},
      priceItems products acc items = .ok t → t = acc + specSum products items
  | [], acc, t, h => by
    simp [priceItems] at h
    simp [specSum, h]
  | i :: rest, acc, t, h => by
    rw [priceItems] at h
    by_cases hv : isValidObjectId i.productId
    · rw [if_pos hv] at h
      cases hp : products.lookup i.productId with
      | none => rw [hp] at h; exact absurd h (by simp)
      | some p =>
        rw [hp] at h
        have := priceItems_ok h
        rw [specSum_cons, hp, this]
        ring
    · rw [if_neg hv] at h
      exact absurd h (by simp)

theorem priceItems_error_of_firstBad {products : List (String × Product)} :
    ∀ {items : List OrderItem} {pid : String} (acc : ℚ),
      firstBad products items = some pid →
      ∃ e, priceItems products acc items = .error e ∧ e.pid = pid
  | [], pid, acc, h => by simp [firstBad, List.find?] at h
  | i :: rest, pid, acc, h => by
    rw [priceItems]
    by_cases hg : goodItem products i = true
    · have hfb : firstBad products rest = some pid := by
        simpa [firstBad, List.find?, hg] using h
      obtain ⟨hv, hs⟩ : isValidObjectId i.productId = true ∧
          (products.lookup i.productId).isSome = true := by
        simpa [goodItem] using hg
      rw [if_pos hv]
      cases hp : products.lookup i.productId with
      | none => rw [hp] at hs; simp at hs
      | some p => exact priceItems_error_of_firstBad _ hfb
    · have hpid : pid = i.productId := by
        have := h
        simp [firstBad, List.find?, hg] at this
        exact this.symm
      by_cases hv : isValidObjectId i.productId
      · rw [if_pos hv]
        cases hp : products.lookup i.productId with
        | none => exact ⟨.unknown i.productId, rfl, hpid.symm⟩
        | some p =>
          exact absurd (by simp [goodItem, hv, hp]) hg
      · rw [if_neg hv]
        exact ⟨.castFail i.productId, rfl, hpid.symm⟩

theorem ceil_div_eq (t l : Nat) (hl : 1 ≤ l) :
    (t + l - 1) / l = ⌈(t : ℚ) / (l : ℚ)⌉₊ := by
  have hl0 : 0 < l := hl
  have hlq : (0 : ℚ) < (l : ℚ) := by exact_mod_cast hl0
  set q := (t + l - 1) / l with hq
  apply le_antisymm
  · rcases Nat.eq_zero_or_pos t with ht | ht
    · subst ht
      have : (0 + l - 1) / l = 0 := Nat.div_eq_of_lt (by omega)
      rw [hq, this]
      exact Nat.zero_le _
    · have hq1 : 1 ≤ q := by
        rw [hq]
        rw [Nat.le_div_iff_mul_le hl0]
        omega
      have hlt : (q - 1) * l < t := by
        have hub : q * l ≤ t + l - 1 := Nat.div_mul_le_self _ _
        have : (q - 1) * l = q * l - l := by
          cases q with
          | zero => omega
          | succ n => simp [Nat.succ_mul]
        omega
      have : ((q - 1 : Nat) : ℚ) < (t : ℚ) / (l : ℚ) := by
        rw [lt_div_iff₀ hlq]
        exact_mod_cast hlt
      have := Nat.lt_ceil.mpr this
      omega
  · rw [Nat.ceil_le]
    rw [div_le_iff₀ hlq]
    have hub : t ≤ q * l := by
      have := (Nat.div_lt_iff_lt_mul hl0).mp (Nat.lt_succ_self q)
      rw [Nat.succ_mul] at this
      omega
    exact_mod_cast hub

theorem mentions_append_right (a p : String) : mentions (a ++ p) p :=
  ⟨a, "", by rw [String.append_empty]⟩

theorem ordersCreate_created {db : DB} {body : OrderReqBody} {now : Nat}
    {newId : String} {o : Order} {db' : DB}
    (h : ordersCreate db body now newId = (.created o, db')) :
    o.items = body.items ∧ o.totalPrice = specSum db.products body.items ∧
    saveItemsValid body.items = true ∧
    db' = { db with orders := (newId, o) :: db.orders } := by
  unfold ordersCreate at h
  by_cases hv : isValidObjectId body.clientId
  · rw [if_pos hv] at h
    cases hc : db.clients.lookup body.clientId with
    | none => rw [hc] at h; exact absurd h (by simp)
    | some c =>
      rw [hc] at h
      dsimp only at h
      cases hp : priceItems db.products 0 body.items with
      | error e =>
        rw [hp] at h
        cases e <;> exact absurd h (by simp)
      | ok tp =>
        rw [hp] at h
        dsimp only at h
        by_cases hs : saveItemsValid body.items
        · rw [if_pos hs] at h
          simp only [Prod.mk.injEq, ApiResp.created.injEq] at h
          obtain ⟨ho, hdb⟩ := h
          have htp : tp = specSum db.products body.items := by
            have := priceItems_ok hp
            rwa [zero_add] at this
          subst ho
          exact ⟨rfl, htp, hs, hdb.symm⟩
        · rw [if_neg hs] at h
          exact absurd h (by simp)
  · rw [if_neg hv] at h
    exact absurd h (by simp)

theorem ordersUpdate_ok {db : DB} {id : String} {items : List OrderItem}
    {o : Order} {db' : DB} (h : ordersUpdate db id items = (.ok o, db')) :
    o.items = items ∧ o.totalPrice = specSum db.products items ∧
    db'.orders.lookup id = some o := by
  unfold ordersUpdate at h
  cases hp : priceItems db.products 0 items with
  | error e =>
    rw [hp] at h
    cases e <;> exact absurd h (by simp)
  | ok tp =>
    rw [hp] at h
    dsimp only at h
    by_cases hv : isValidObjectId id
    · rw [if_pos hv] at h
      cases ho : db.orders.lookup id with
      | none => rw [ho] at h; exact absurd h (by simp)
      | some o0 =>
        rw [ho] at h
        simp only [Prod.mk.injEq, ApiResp.ok.injEq] at h
        obtain ⟨ho', hdb⟩ := h
        have htp : tp = specSum db.products items := by
          have := priceItems_ok hp
          rwa [zero_add] at this
        subst ho'
        refine ⟨rfl, htp, ?_⟩
        rw [← hdb]
        exact lookup_map_replace _ ho
    · rw [if_neg hv] at h
      exact absurd h (by simp)

/-! ## Claim theorems -/

/-- Strings with a common left factor are equal iff the right factors are. -/
theorem append_left_cancel_str {s a b : String} (h : s ++ a = s ++ b) : a = b := by
  have hd := congrArg String.data h
  rw [String.data_append, String.data_append] at hd
  have := List.append_cancel_left hd
  cases a; cases b
  exact congrArg String.mk this

/-! ### C1 -/

/-- C1: order create and update abort with an error naming the first
unresolvable product id, leaving the store unchanged and returning no total;
when every item resolves, the persisted order's totalPrice is the ordered
sum of price times quantity. -/
theorem C1_pricing_all_or_nothing (db : DB) (body : OrderReqBody) (now : Nat)
    (newId : String) (id : String) (items : List OrderItem) :
    (∀ pid c, isValidObjectId body.clientId = true →
      db.clients.lookup body.clientId = some c →
      firstBad db.products body.items = some pid →
      namesOffending (ordersCreate db body now newId).1 pid ∧
      (ordersCreate db body now newId).2 = db) ∧
    (∀ o db', ordersCreate db body now newId = (.created o, db') →
      o.totalPrice = specSum db.products body.items ∧
      db'.orders.lookup newId = some o) ∧
    (∀ pid, firstBad db.products items = some pid →
      namesOffending (ordersUpdate db id items).1 pid ∧
      (ordersUpdate db id items).2 = db) ∧
    (∀ o db', ordersUpdate db id items = (.ok o, db') →
      o.totalPrice = specSum db.products items ∧
      db'.orders.lookup id = some o) := by
  refine ⟨?_, ?_, ?_, ?_⟩
  · intro pid c hv hc hfb
    obtain ⟨e, hpe, hpid⟩ := priceItems_error_of_firstBad 0 hfb
    cases e with
    | unknown p =>
      have hcalc : ordersCreate db body now newId =
          (.badRequest ("Invalid product ID: " ++ p) none, db) := by
        unfold ordersCreate
        rw [if_pos hv, hc]
        dsimp only
        rw [hpe]
      rw [hcalc]
      have hp' : p = pid := hpid
      subst hp'
      exact ⟨Or.inl (mentions_append_right _ _), rfl⟩
    | castFail p =>
      have hcalc : ordersCreate db body now newId =
          (.badRequest "Error creating order" (some (castMsg p)), db) := by
        unfold ordersCreate
        rw [if_pos hv, hc]
        dsimp only
        rw [hpe]
      rw [hcalc]
      have hp' : p = pid := hpid
      subst hp'
      exact ⟨Or.inr ⟨castMsg p, rfl, mentions_append_right _ _⟩, rfl⟩
  · intro o db' h
    obtain ⟨-, htp, -, hdb⟩ := ordersCreate_created h
    refine ⟨htp, ?_⟩
    rw [hdb]
    simp [List.lookup]
  · intro pid hfb
    obtain ⟨e, hpe, hpid⟩ := priceItems_error_of_firstBad 0 hfb
    cases e with
    | unknown p =>
      have hcalc : ordersUpdate db id items =
          (.badRequest ("Invalid product ID: " ++ p) none, db) := by
        unfold ordersUpdate
        rw [hpe]
      rw [hcalc]
      have hp' : p = pid := hpid
      subst hp'
      exact ⟨Or.inl (mentions_append_right _ _), rfl⟩
    | castFail p =>
      have hcalc : ordersUpdate db id items =
          (.badRequest "Error updating order" (some (castMsg p)), db) := by
        unfold ordersUpdate
        rw [hpe]
      rw [hcalc]
      have hp' : p = pid := hpid
      subst hp'
      exact ⟨Or.inr ⟨castMsg p, rfl, mentions_append_right _ _⟩, rfl⟩
  · intro o db' h
    obtain ⟨-, htp, hl⟩ := ordersUpdate_ok h
    exact ⟨htp, hl⟩

/-- C1 witness: concrete runs of create and update on small stores, one
failing on an unknown product id and one succeeding with the computed sum. -/
theorem C1_witness :
    (isValidObjectId cidW = true ∧
      dbW.clients.lookup cidW = some ⟨"John", "john@example.com"⟩ ∧
      firstBad dbW.products [⟨pidU, 2⟩] = some pidU ∧
      namesOffending (ordersCreate dbW ⟨cidW, [⟨pidU, 2⟩], none⟩ 0 oidW).1 pidU ∧
      (ordersCreate dbW ⟨cidW, [⟨pidU, 2⟩], none⟩ 0 oidW).2 = dbW) ∧
    (ordersCreate dbW ⟨cidW, [⟨pidW, 2⟩], none⟩ 0 oidW = (.created oC1W, dbC1W) ∧
      oC1W.totalPrice = specSum dbW.products [⟨pidW, 2⟩] ∧
      dbC1W.orders.lookup oidW = some oC1W) ∧
    (firstBad dbOrdW.products [⟨pidU, 1⟩] = some pidU ∧
      namesOffending (ordersUpdate dbOrdW ordIdW [⟨pidU, 1⟩]).1 pidU ∧
      (ordersUpdate dbOrdW ordIdW [⟨pidU, 1⟩]).2 = dbOrdW) ∧
    (ordersUpdate dbOrdW ordIdW [⟨pidW, 3⟩] = (.ok oU1W, dbU1W) ∧
      oU1W.totalPrice = specSum dbOrdW.products [⟨pidW, 3⟩] ∧
      dbU1W.orders.lookup ordIdW = some oU1W) := by
  have h1 := (C1_pricing_all_or_nothing dbW ⟨cidW, [⟨pidU, 2⟩], none⟩ 0 oidW "" []).1
    pidU ⟨"John", "john@example.com"⟩ (by decide) (by decide) (by decide)
  have h2 := (C1_pricing_all_or_nothing dbW ⟨cidW, [⟨pidW, 2⟩], none⟩ 0 oidW "" []).2.1
    oC1W dbC1W (by with_unfolding_all rfl)
  have h3 := (C1_pricing_all_or_nothing dbOrdW ⟨"", [], none⟩ 0 "" ordIdW
    [⟨pidU, 1⟩]).2.2.1 pidU (by decide)
  have h4 := (C1_pricing_all_or_nothing dbOrdW ⟨"", [], none⟩ 0 "" ordIdW
    [⟨pidW, 3⟩]).2.2.2 oU1W dbU1W (by with_unfolding_all rfl)
  exact ⟨⟨by decide, by decide, by decide, h1.1, h1.2⟩,
    ⟨by with_unfolding_all rfl, h2.1, h2.2⟩, ⟨by decide, h3.1, h3.2⟩,
    ⟨by with_unfolding_all rfl, h4.1, h4.2⟩⟩


/-! ### C2, C3, C4 -/

/-- C2 counterexample: the earlier order-creation handler variant persists
the client-supplied totalPrice 999 although the items price to 20. -/
theorem C2_counterexample :
    (ordersCreateV0 dbW ⟨cidW, [⟨pidW, 2⟩], some 999⟩ 0 oidW).1 =
      .created ⟨cidW, [⟨pidW, 2⟩], 999, .pending, 0⟩ ∧
    specSum dbW.products [⟨pidW, 2⟩] = 20 ∧ (999 : ℚ) ≠ 20 :=
  ⟨by with_unfolding_all rfl, by with_unfolding_all rfl, by norm_num⟩

/-- C2 amended: the order-creation handler with automatic price calculation
ignores any totalPrice in the request body and stores the computed sum. -/
theorem C2_total_computed_server_side (db : DB) (body : OrderReqBody)
    (tp' : Option ℚ) (now : Nat) (newId : String) (o : Order) (db' : DB) :
    ordersCreate db { body with totalPrice := tp' } now newId =
      ordersCreate db body now newId ∧
    (ordersCreate db body now newId = (.created o, db') →
      o.totalPrice = specSum db.products body.items) :=
  ⟨rfl, fun h => (ordersCreate_created h).2.1⟩

/-- C2 witness: with the body's totalPrice set to 999 the pricing handler
behaves identically and stores the computed 20. -/
theorem C2_witness :
    ordersCreate dbW ⟨cidW, [⟨pidW, 2⟩], some 999⟩ 0 oidW =
      ordersCreate dbW ⟨cidW, [⟨pidW, 2⟩], none⟩ 0 oidW ∧
    ordersCreate dbW ⟨cidW, [⟨pidW, 2⟩], none⟩ 0 oidW = (.created oC1W, dbC1W) ∧
    oC1W.totalPrice = specSum dbW.products [⟨pidW, 2⟩] :=
  ⟨(C2_total_computed_server_side dbW ⟨cidW, [⟨pidW, 2⟩], none⟩ (some 999)
      0 oidW oC1W dbC1W).1,
   by with_unfolding_all rfl,
   (C2_total_computed_server_side dbW ⟨cidW, [⟨pidW, 2⟩], none⟩ (some 999)
      0 oidW oC1W dbC1W).2 (by with_unfolding_all rfl)⟩

/-- C3 counterexample: the client-scoped order creation persists an order
whose clientId resolves to no stored client. -/
theorem C3_counterexample :
    dbW.clients.lookup eidW = none ∧
    (clientOrdersCreate dbW eidW [⟨pidW, 1⟩] 0 oidW).1 =
      .created ⟨eidW, [⟨pidW, 1⟩], 10, .pending, 0⟩ ∧
    (clientOrdersCreate dbW eidW [⟨pidW, 1⟩] 0 oidW).2.orders =
      [(oidW, ⟨eidW, [⟨pidW, 1⟩], 10, .pending, 0⟩)] :=
  ⟨by decide, by with_unfolding_all rfl, by with_unfolding_all rfl⟩

/-- C3 amended: the top-level order creation rejects a clientId that does
not resolve (400, nothing persisted; a malformed clientId is also a 400 with
nothing persisted), while the client-scoped creation never consults the
clients collection at all. -/
theorem C3_client_check_only_top_level (db : DB) (body : OrderReqBody)
    (now : Nat) (newId : String) (cs cs' : List (String × Client))
    (cid : String) (items : List OrderItem) :
    (isValidObjectId body.clientId = true →
      db.clients.lookup body.clientId = none →
      ordersCreate db body now newId = (.badRequest "Invalid client ID" none, db)) ∧
    (isValidObjectId body.clientId = false →
      ordersCreate db body now newId =
        (.badRequest "Error creating order" (some (castMsg body.clientId)), db)) ∧
    (clientOrdersCreate { db with clients := cs } cid items now newId).1 =
      (clientOrdersCreate { db with clients := cs' } cid items now newId).1 ∧
    (clientOrdersCreate { db with clients := cs } cid items now newId).2.orders =
      (clientOrdersCreate { db with clients := cs' } cid items now newId).2.orders := by
  refine ⟨?_, ?_, ?_, ?_⟩
  · intro hv hn
    unfold ordersCreate
    rw [if_pos hv, hn]
  · intro hv
    unfold ordersCreate
    rw [if_neg (by simp [hv])]
  · cases hp : priceItems db.products 0 items with
    | error e => cases e <;> simp [clientOrdersCreate, hp]
    | ok tp =>
      simp only [clientOrdersCreate, hp]
      split <;> rfl
  · cases hp : priceItems db.products 0 items with
    | error e => cases e <;> simp [clientOrdersCreate, hp]
    | ok tp =>
      simp only [clientOrdersCreate, hp]
      split <;> rfl

/-- C3 witness: concrete rejections by the top-level create and a concrete
client-independence instance for the scoped create. -/
theorem C3_witness :
    (isValidObjectId eidW = true ∧ dbW.clients.lookup eidW = none ∧
      ordersCreate dbW ⟨eidW, [⟨pidW, 1⟩], none⟩ 0 oidW =
        (.badRequest "Invalid client ID" none, dbW)) ∧
    (isValidObjectId "zzz" = false ∧
      ordersCreate dbW ⟨"zzz", [⟨pidW, 1⟩], none⟩ 0 oidW =
        (.badRequest "Error creating order" (some (castMsg "zzz")), dbW)) ∧
    (clientOrdersCreate { dbW with clients := [] } eidW [⟨pidW, 1⟩] 0 oidW).1 =
      (clientOrdersCreate { dbW with clients := dbW.clients } eidW
        [⟨pidW, 1⟩] 0 oidW).1 :=
  ⟨⟨by decide, by decide,
    (C3_client_check_only_top_level dbW ⟨eidW, [⟨pidW, 1⟩], none⟩ 0 oidW
      [] [] "" []).1 (by decide) (by decide)⟩,
   ⟨by decide,
    (C3_client_check_only_top_level dbW ⟨"zzz", [⟨pidW, 1⟩], none⟩ 0 oidW
      [] [] "" []).2.1 (by decide)⟩,
   (C3_client_check_only_top_level dbW ⟨"", [], none⟩ 0 oidW
      [] dbW.clients eidW [⟨pidW, 1⟩]).2.2.1⟩

/-- C4: the client list reports the number of matching clients, echoes page
and limit (with defaults 1 and 10), returns the slice at offset
(page-1)*limit of length at most limit, and reports
totalPages = ceiling(total / limit). -/
theorem C4_clients_list_pagination (db : DB) (pageQ limitQ : Option Nat)
    (nameF emailF : Option String)
    (_hp : 1 ≤ pageQ.getD 1) (hl : 1 ≤ limitQ.getD 10) :
    (clientsList db pageQ limitQ nameF emailF).total =
      (db.clients.filter (fun p => matchesClient nameF emailF p.2)).length ∧
    (clientsList db pageQ limitQ nameF emailF).page = pageQ.getD 1 ∧
    (clientsList db pageQ limitQ nameF emailF).limit = limitQ.getD 10 ∧
    (clientsList db pageQ limitQ nameF emailF).data =
      (((db.clients.filter (fun p => matchesClient nameF emailF p.2)).drop
          ((pageQ.getD 1 - 1) * limitQ.getD 10)).take (limitQ.getD 10)).map
        (fun p => ⟨p.1, p.2.name, p.2.email⟩) ∧
    (clientsList db pageQ limitQ nameF emailF).data.length ≤ limitQ.getD 10 ∧
    (clientsList db pageQ limitQ nameF emailF).totalPages =
      ⌈((clientsList db pageQ limitQ nameF emailF).total : ℚ) /
        ((limitQ.getD 10 : Nat) : ℚ)⌉₊ := by
  refine ⟨rfl, rfl, rfl, rfl, ?_, ?_⟩
  · show ((((db.clients.filter _).drop _).take _).map _).length ≤ _
    rw [List.length_map, List.length_take]
    exact min_le_left _ _
  · exact ceil_div_eq _ _ hl

/-- C4 witness: listing page 2 with limit 1 over three stored clients
returns one item, total 3 and totalPages 3. -/
theorem C4_witness :
    (clientsList db3W (some 2) (some 1) none none).total = 3 ∧
    (clientsList db3W (some 2) (some 1) none none).data.length = 1 ∧
    (clientsList db3W (some 2) (some 1) none none).totalPages = 3 ∧
    (clientsList db3W (some 2) (some 1) none none).totalPages =
      ⌈((clientsList db3W (some 2) (some 1) none none).total : ℚ) /
        (((some 1 : Option Nat).getD 10 : Nat) : ℚ)⌉₊ :=
  ⟨by decide, by decide, by decide,
   (C4_clients_list_pagination db3W (some 2) (some 1) none none
      (by decide) (by decide)).2.2.2.2.2⟩


/-! ### C5 through C10 -/

/-- C5: the auth middleware responds 401 "Access denied. No token provided."
and halts when the Authorization header is absent, responds 401 "Invalid
token" and halts when a token is supplied but verification fails, and passes
control downstream with the decoded subject attached when verification
succeeds. -/
theorem C5_auth_middleware {α : Type} (verify : String → Option α)
    (t : String) (u : α) :
    authMiddleware verify none = .denied 401 "Access denied. No token provided." ∧
    (t ≠ "" → verify (replaceFirst t "Bearer " "") = none →
      authMiddleware verify (some t) = .denied 401 "Invalid token") ∧
    (t ≠ "" → verify (replaceFirst t "Bearer " "") = some u →
      authMiddleware verify (some t) = .allowed u) := by
  refine ⟨rfl, ?_, ?_⟩
  · intro h1 h2
    simp [authMiddleware, h1, h2]
  · intro h1 h2
    simp [authMiddleware, h1, h2]

/-- C5 witness: concrete runs of the middleware under the verifier `vW`. -/
theorem C5_witness :
    authMiddleware vW none = .denied 401 "Access denied. No token provided." ∧
    (("bad" : String) ≠ "" ∧ vW (replaceFirst "bad" "Bearer " "") = none ∧
      authMiddleware vW (some "bad") = .denied 401 "Invalid token") ∧
    (("tok" : String) ≠ "" ∧ vW (replaceFirst "tok" "Bearer " "") = some 7 ∧
      authMiddleware vW (some "tok") = .allowed 7) :=
  ⟨(C5_auth_middleware vW "x" 0).1,
   ⟨by decide, by decide,
    (C5_auth_middleware vW "bad" 7).2.1 (by decide) (by decide)⟩,
   ⟨by decide, by decide,
    (C5_auth_middleware vW "tok" 7).2.2 (by decide) (by decide)⟩⟩

/-- C10: any token that verifies (a JWT contains no space, in particular not
the substring "Bearer ") is accepted both bare and with the "Bearer " prefix,
because the middleware merely strips the first occurrence of "Bearer ". -/
theorem C10_bearer_not_required {α : Type} (verify : String → Option α)
    (t : String) (u : α) (hne : t ≠ "")
    (hsp : ∀ c ∈ t.data, c ≠ ' ') (hv : verify t = some u) :
    authMiddleware verify (some t) = .allowed u ∧
    authMiddleware verify (some ("Bearer " ++ t)) = .allowed u := by
  constructor
  · simp [authMiddleware, hne, replaceFirst_no_space hsp, hv]
  · have hne2 : ("Bearer " ++ t) ≠ "" := by
      intro h
      have := congrArg String.data h
      rw [String.data_append] at this
      simp at this
    simp [authMiddleware, hne2, replaceFirst_strip, hv]

/-- C10 witness: the verifier `vW` accepts both "tok" and "Bearer tok". -/
theorem C10_witness :
    (("tok" : String) ≠ "" ∧ (∀ c ∈ ("tok" : String).data, c ≠ ' ') ∧
      vW "tok" = some 7) ∧
    authMiddleware vW (some "tok") = .allowed 7 ∧
    authMiddleware vW (some ("Bearer " ++ "tok")) = .allowed 7 :=
  ⟨⟨by decide, by decide, by decide⟩,
   (C10_bearer_not_required vW "tok" 7 (by decide) (by decide) (by decide)).1,
   (C10_bearer_not_required vW "tok" 7 (by decide) (by decide) (by decide)).2⟩

/-- C8: client getById distinguishes a well-formed id matching no client
(404 Client not found) from a malformed id (400 Invalid ID format, never
404). -/
theorem C8_get_by_id_failure_modes (db : DB) (id : String) :
    (isValidObjectId id = true → db.clients.lookup id = none →
      clientsGetById db id = .notFound "Client not found") ∧
    (isValidObjectId id = false →
      clientsGetById db id = .badRequest "Invalid ID format" none ∧
      statusOf (clientsGetById db id) = 400 ∧
      statusOf (clientsGetById db id) ≠ 404) := by
  constructor
  · intro hv hn
    simp [clientsGetById, hv, hn]
  · intro hv
    refine ⟨by simp [clientsGetById, hv], ?_, ?_⟩ <;>
      simp [clientsGetById, hv, statusOf]

/-- C8 witness: `eidW` is well-formed and stored nowhere, so getById on `dbW`
is 404; the malformed id "zzz" is 400 and not 404. -/
theorem C8_witness :
    (isValidObjectId eidW = true ∧ dbW.clients.lookup eidW = none ∧
      clientsGetById dbW eidW = .notFound "Client not found") ∧
    (isValidObjectId "zzz" = false ∧
      clientsGetById dbW "zzz" = .badRequest "Invalid ID format" none ∧
      statusOf (clientsGetById dbW "zzz") = 400 ∧
      statusOf (clientsGetById dbW "zzz") ≠ 404) :=
  ⟨⟨by decide, by decide,
    (C8_get_by_id_failure_modes dbW eidW).1 (by decide) (by decide)⟩,
   ⟨by decide, (C8_get_by_id_failure_modes dbW "zzz").2 (by decide)⟩⟩

/-- C9: for a well-formed id, deleting a client or order that is not stored
responds 404 (not an internal error) and leaves the store unchanged, and the
second of two consecutive deletes always responds 404 with the store
unchanged. -/
theorem C9_delete_idempotent (db : DB) (id : String)
    (hid : isValidObjectId id = true) :
    (db.clients.lookup id = none →
      clientsDelete db id = (.notFound "Client not found", db)) ∧
    (db.orders.lookup id = none →
      ordersDelete db id = (.notFound "Order not found", db)) ∧
    clientsDelete (clientsDelete db id).2 id =
      (.notFound "Client not found", (clientsDelete db id).2) ∧
    ordersDelete (ordersDelete db id).2 id =
      (.notFound "Order not found", (ordersDelete db id).2) := by
  have hclients : ∀ (d : DB), d.clients.lookup id = none →
      clientsDelete d id = (.notFound "Client not found", d) := by
    intro d hn
    simp [clientsDelete, hid, hn]
  have horders : ∀ (d : DB), d.orders.lookup id = none →
      ordersDelete d id = (.notFound "Order not found", d) := by
    intro d hn
    simp [ordersDelete, hid, hn]
  refine ⟨hclients db, horders db, ?_, ?_⟩
  · apply hclients
    cases hc : db.clients.lookup id with
    | none => simp [clientsDelete, hid, hc]
    | some c => simp [clientsDelete, hid, hc, lookup_filter_ne]
  · apply horders
    cases hc : db.orders.lookup id with
    | none => simp [ordersDelete, hid, hc]
    | some c => simp [ordersDelete, hid, hc, lookup_filter_ne]

/-- C9 witness: double deletion of the stored client `cidW` and the stored
order `ordIdW` of `dbOrdW`. -/
theorem C9_witness :
    isValidObjectId cidW = true ∧
    clientsDelete (clientsDelete dbOrdW cidW).2 cidW =
      (.notFound "Client not found", (clientsDelete dbOrdW cidW).2) ∧
    isValidObjectId ordIdW = true ∧
    ordersDelete (ordersDelete dbOrdW ordIdW).2 ordIdW =
      (.notFound "Order not found", (ordersDelete dbOrdW ordIdW).2) :=
  ⟨by decide, (C9_delete_idempotent dbOrdW cidW (by decide)).2.2.1,
   by decide, (C9_delete_idempotent dbOrdW ordIdW (by decide)).2.2.2⟩


/-- C6: after a successful registration, logging in with the registered email
and the correct password yields a token whose decoded subject is the new
user's id, while any wrong password yields the 400 Invalid credentials
response instead of a token. -/
theorem C6_register_login_round_trip (db : DB)
    (name email password newId : String) (db' : DB) (w : String)
    (hreg : authRegister db name email password newId = (.registered, db')) :
    (authLogin db' email password = .token (signToken newId) ∧
      decodedSubject (signToken newId) = newId) ∧
    (w ≠ password → w ≠ "" →
      authLogin db' email w = .badRequest "Invalid credentials") := by
  unfold authRegister at hreg
  by_cases hn : name = ""
  · simp [hn] at hreg
  by_cases he : isEmailB email
  · by_cases hp6 : password.length < 6
    · simp [hn, he, hp6] at hreg
    · simp only [hn, he, hp6, if_false, if_true, List.append_nil,
        List.nil_append, if_neg, ite_false, ite_true] at hreg
      cases hf : db.users.find? (fun u => u.2.email == email) with
      | some u =>
        rw [hf] at hreg
        exact absurd hreg (by simp)
      | none =>
        rw [hf] at hreg
        simp only [Prod.mk.injEq, true_and] at hreg
        subst hreg
        have hpne : password ≠ "" := by
          intro h
          rw [h] at hp6
          exact hp6 (by decide)
        constructor
        · constructor
          · unfold authLogin
            simp only [he, hpne, if_false, if_true, List.append_nil,
              List.nil_append, ite_false, ite_true]
            simp [List.find?, bcryptCompare]
          · rfl
        · intro hw hwne
          unfold authLogin
          simp only [he, hwne, if_false, if_true, List.append_nil,
            List.nil_append, ite_false, ite_true]
          have hcmp : bcryptCompare w (hashPassword password) = false := by
            unfold bcryptCompare
            rw [beq_eq_false_iff_ne]
            intro hcontra
            exact hw (append_left_cancel_str hcontra).symm
          simp [List.find?, hcmp]
  · simp [hn, he] at hreg


/-- C6 witness: a concrete registration followed by a correct and a wrong
login. -/
theorem C6_witness :
    authRegister dbW "John" "john@e.com" "secret1" uidW = (.registered, dbRegW) ∧
    ("wrong99" : String) ≠ "secret1" ∧ ("wrong99" : String) ≠ "" ∧
    authLogin dbRegW "john@e.com" "secret1" = .token (signToken uidW) ∧
    decodedSubject (signToken uidW) = uidW ∧
    authLogin dbRegW "john@e.com" "wrong99" = .badRequest "Invalid credentials" := by
  have h := C6_register_login_round_trip dbW "John" "john@e.com" "secret1" uidW
    dbRegW "wrong99" (by with_unfolding_all rfl)
  exact ⟨by with_unfolding_all rfl, by decide, by decide, h.1.1, h.1.2,
    h.2 (by decide) (by decide)⟩

/-- C7 counterexample: a create with an empty items list is accepted and
persists an order with no items and totalPrice 0, and an update never
re-runs the quantity validator, persisting a zero quantity. -/
theorem C7_counterexample :
    (ordersCreate dbW ⟨cidW, [], none⟩ 0 oidW).1 =
      .created ⟨cidW, [], 0, .pending, 0⟩ ∧
    (ordersCreate dbW ⟨cidW, [], none⟩ 0 oidW).2.orders =
      [(oidW, ⟨cidW, [], 0, .pending, 0⟩)] ∧
    (ordersUpdate dbOrdW ordIdW [⟨pidW, 0⟩]).1 =
      .ok ⟨cidW, [⟨pidW, 0⟩], 0, .pending, 0⟩ ∧
    (ordersUpdate dbOrdW ordIdW [⟨pidW, 0⟩]).2.orders =
      [(ordIdW, ⟨cidW, [⟨pidW, 0⟩], 0, .pending, 0⟩)] :=
  ⟨by with_unfolding_all rfl, by with_unfolding_all rfl,
   by with_unfolding_all rfl, by with_unfolding_all rfl⟩

/-- C7 amended: every order the create operation accepts for persistence has
items whose quantities are all at least 1 (the mongoose save validation). -/
theorem C7_create_quantities_at_least_one (db : DB) (body : OrderReqBody)
    (now : Nat) (newId : String) (o : Order) (db' : DB)
    (h : ordersCreate db body now newId = (.created o, db')) :
    o.items.all (fun i => decide (1 ≤ i.quantity)) = true := by
  obtain ⟨hitems, -, hvalid, -⟩ := ordersCreate_created h
  rw [hitems]
  unfold saveItemsValid at hvalid
  rw [List.all_eq_true] at hvalid ⊢
  intro i hi
  have hb := hvalid i hi
  simp only [Bool.and_eq_true] at hb
  exact hb.2

/-- C7 witness: the successful concrete create has all quantities at least 1. -/
theorem C7_witness :
    ordersCreate dbW ⟨cidW, [⟨pidW, 2⟩], none⟩ 0 oidW = (.created oC1W, dbC1W) ∧
    oC1W.items.all (fun i => decide (1 ≤ i.quantity)) = true :=
  ⟨by with_unfolding_all rfl,
   C7_create_quantities_at_least_one dbW ⟨cidW, [⟨pidW, 2⟩], none⟩ 0 oidW
     oC1W dbC1W (by with_unfolding_all rfl)⟩


end NodeApi
